import Mathlib

/-! Shallow embedding of `src/tools/screenshot/organizer.py` (class
`ScreenshotOrganizer`).  Paths are lists of components; the filesystem is an
association list from paths to file sizes; a Python exception is modelled by
an `OpResult` value that carries the mutated state on both normal and
exceptional exit, matching Python's mutate-then-raise semantics.
Environmental failure of the primitives (`shutil.copy2`, `shutil.move`,
`Path.mkdir`, `subprocess.run`) is an oracle packaged in `Env`. -/

namespace Organizer

/-- A filesystem path, as its list of components. -/
abbrev FPath := List String

/-- `Path.name`: the final component. -/
def pathName (p : FPath) : String := p.getLastD ""

/-- `Path.parent`: the path without its final component. -/
def pathParent (p : FPath) : FPath := p.dropLast

/-- Filesystem contents: paths associated to their `st_size`. -/
abbrev FS := List (FPath × Nat)

/-- Size of the file at `p`, `none` when absent. -/
def fsStat : FS → FPath → Option Nat
  | [], _ => none
  | e :: fs, p => if e.1 = p then some e.2 else fsStat fs p

/-- Delete the file at `p` (no-op when absent). -/
def fsRemove : FS → FPath → FS
  | [], _ => []
  | e :: fs, p => if e.1 = p then fsRemove fs p else e :: fsRemove fs p

/-- Create or overwrite the file at `p` with size `sz`. -/
def fsWrite (fs : FS) (p : FPath) (sz : Nat) : FS :=
  (p, sz) :: fsRemove fs p

/-- Mutable world state: files plus the set of directories `mkdir`ed. -/
structure St where
  fs : FS
  dirs : List FPath
deriving DecidableEq

/-- Result of a Python statement: normal or exceptional exit, both carrying
the state as mutated so far. -/
inductive OpResult (α : Type) where
  | ok : α → St → OpResult α
  | err : String → St → OpResult α
deriving DecidableEq

/-- The state at exit, whether normal or exceptional. -/
def finalSt {α : Type} : OpResult α → St
  | .ok _ st => st
  | .err _ st => st

/-- Statement sequencing: an exception short-circuits the rest of the block
while keeping the state mutated so far. -/
def opBind {α β : Type} (x : OpResult α) (f : α → St → OpResult β) : OpResult β :=
  match x with
  | .ok a st => f a st
  | .err e st => .err e st

/-- Environment oracle: which primitive invocations fail, and how the
external `pngquant` process behaves. -/
structure Env where
  copyFails : FPath → FPath → Bool
  moveFails : FPath → FPath → Bool
  mkdirFails : FPath → Bool
  pngquantThrows : Bool
  pngquantRet : Nat
  pngquantSize : Nat → Nat
  tempPath : FPath → FPath

/-- `p.stat().st_size`; raises `FileNotFoundError` when `p` is absent. -/
def statSize (p : FPath) (st : St) : OpResult Nat :=
  match fsStat st.fs p with
  | some sz => .ok sz st
  | none => .err "FileNotFoundError" st

/-- `shutil.copy2(src, dst)`. -/
def copy2 (env : Env) (src dst : FPath) (st : St) : OpResult Unit :=
  match fsStat st.fs src with
  | none => .err "FileNotFoundError" st
  | some sz =>
    if env.copyFails src dst then .err "copy2 failed" st
    else .ok () { st with fs := fsWrite st.fs dst sz }

/-- `shutil.move(src, dst)`: the source is removed, the destination written. -/
def moveFile (env : Env) (src dst : FPath) (st : St) : OpResult Unit :=
  match fsStat st.fs src with
  | none => .err "FileNotFoundError" st
  | some sz =>
    if env.moveFails src dst then .err "move failed" st
    else .ok () { st with fs := fsWrite (fsRemove st.fs src) dst sz }

/-- `d.mkdir(parents=True, exist_ok=True)`: records `d` as created. -/
def mkdirParents (env : Env) (d : FPath) (st : St) : OpResult Unit :=
  if env.mkdirFails d then .err "mkdir failed" st
  else .ok () { st with dirs := if d ∈ st.dirs then st.dirs else st.dirs ++ [d] }

/-- `p.unlink()`; raises when `p` is absent. -/
def unlinkFile (p : FPath) (st : St) : OpResult Unit :=
  if (fsStat st.fs p).isSome then .ok () { st with fs := fsRemove st.fs p }
  else .err "FileNotFoundError" st

/-- `subprocess.run(['pngquant', '--force', '--ext', '.png',
'--skip-if-larger', temp])`: raises when the executable is missing
(`FileNotFoundError`); exit code 0 rewrites `temp` in place with the
optimized size; any non-zero exit leaves `temp` untouched. -/
def runPngquant (env : Env) (temp : FPath) (st : St) : OpResult Nat :=
  if env.pngquantThrows then .err "FileNotFoundError: pngquant" st
  else if env.pngquantRet = 0 then
    match fsStat st.fs temp with
    | some sz => .ok 0 { st with fs := fsWrite st.fs temp (env.pngquantSize sz) }
    | none => .ok 0 st
  else .ok env.pngquantRet st

/-- `str.lower`, characterwise. -/
def strLower (s : String) : String := String.mk (s.toList.map Char.toLower)

/-- The characters after the last dot of the input, `none` when it has no
dot. -/
def afterLastDot : List Char → Option (List Char)
  | [] => none
  | c :: cs =>
    match afterLastDot cs with
    | some suf => some suf
    | none => if c = '.' then some cs else none

/-- `PurePath.suffix` of a final component: the extension with its dot,
`""` when there is no dot or only a leading one. -/
def pathSuffix (name : String) : String :=
  match name.toList with
  | [] => ""
  | _ :: rest =>
    match afterLastDot rest with
    | some suf => String.mk ('.' :: suf)
    | none => ""

/-- `source_path.suffix.lower() == '.png'`. -/
def isPngName (name : String) : Bool := strLower (pathSuffix name) == ".png"

/-- Parse exactly `n` ASCII digits, most significant first. -/
def parseDigitsAux : Nat → Nat → List Char → Option (Nat × List Char)
  | 0, acc, cs => some (acc, cs)
  | _ + 1, _, [] => none
  | n + 1, acc, c :: cs =>
    if c.isDigit then parseDigitsAux n (acc * 10 + (c.toNat - 48)) cs else none

/-- Match a literal character sequence at the head of the input. -/
def dropLit : List Char → List Char → Option (List Char)
  | [], cs => some cs
  | _ :: _, [] => none
  | l :: ls, c :: cs => if c = l then dropLit ls cs else none

/-- One anchored attempt of the default pattern
`Screenshot (\d{4})-(\d{2})-(\d{2}) at`. -/
def matchDateAt (cs : List Char) : Option (Nat × Nat × Nat) := do
  let cs ← dropLit "Screenshot ".toList cs
  let (y, cs) ← parseDigitsAux 4 0 cs
  let cs ← dropLit "-".toList cs
  let (m, cs) ← parseDigitsAux 2 0 cs
  let cs ← dropLit "-".toList cs
  let (d, cs) ← parseDigitsAux 2 0 cs
  let _ ← dropLit " at".toList cs
  some (y, m, d)

/-- `re.search` of the default pattern: try every start position, leftmost
match wins. -/
def searchDate : List Char → Option (Nat × Nat × Nat)
  | [] => none
  | c :: cs =>
    match matchDateAt (c :: cs) with
    | some r => some r
    | none => searchDate cs

/-- `_parse_date_from_filename` under the default pattern. -/
def parseDateFromFilename (filename : String) : Option (Nat × Nat × Nat) :=
  searchDate filename.toList

/-- Gregorian leap year. -/
def isLeapYear (y : Nat) : Bool := (y % 4 == 0 && y % 100 != 0) || y % 400 == 0

/-- Days in a month of a given year. -/
def daysInMonth (y m : Nat) : Nat :=
  if m = 2 then (if isLeapYear y then 29 else 28)
  else if m = 4 ∨ m = 6 ∨ m = 9 ∨ m = 11 then 30
  else 31

/-- Validity of the fields of `datetime(year, month, day)`; construction
raises `ValueError` exactly when this is false. -/
def datetimeValid (y m d : Nat) : Bool :=
  decide (1 ≤ y ∧ y ≤ 9999 ∧ 1 ≤ m ∧ m ≤ 12 ∧ 1 ≤ d ∧ d ≤ daysInMonth y m)

/-- Days strictly before year `y` in the proleptic Gregorian calendar. -/
def daysBeforeYear (y : Nat) : Nat :=
  (y - 1) * 365 + (y - 1) / 4 - (y - 1) / 100 + (y - 1) / 400

/-- Days of year `y` strictly before month `m`. -/
def daysBeforeMonth (y m : Nat) : Nat :=
  ((List.range' 1 (m - 1)).map (daysInMonth y)).sum

/-- `datetime.toordinal`: day count with 0001-01-01 as day 1. -/
def toOrdinal (y m d : Nat) : Nat := daysBeforeYear y + daysBeforeMonth y m + d

/-- Ordinal of the Monday of ISO week 1 of year `y` (the week containing
January 4th, Monday first). -/
def isoWeek1Monday (y : Nat) : Nat :=
  let firstDay := toOrdinal y 1 1
  let firstWeekday := (firstDay + 6) % 7
  let week1Monday := firstDay - firstWeekday
  if 3 < firstWeekday then week1Monday + 7 else week1Monday

/-- ISO-8601 week number, as returned by `datetime.isocalendar()[1]`; the
negative floor division of the reference algorithm is replaced by an order
split (`today` is never below the previous year's week-1 Monday). -/
def isoWeek (y m d : Nat) : Nat :=
  let today := toOrdinal y m d
  let w1m := isoWeek1Monday y
  if today < w1m then (today - isoWeek1Monday (y - 1)) / 7 + 1
  else
    let week := (today - w1m) / 7
    if 52 ≤ week ∧ isoWeek1Monday (y + 1) ≤ today then 1 else week + 1

/-- `_get_week_of_year`: constructs `datetime(year, month, day)` — which
raises `ValueError` on out-of-range fields — and returns its ISO week. -/
def getWeekOfYear (y m d : Nat) : Except String Nat :=
  if datetimeValid y m d then .ok (isoWeek y m d) else .error "ValueError"

/-- The list literal of `_get_month_name`. -/
def monthNames : List String :=
  ["January", "February", "March", "April", "May", "June",
   "July", "August", "September", "October", "November", "December"]

/-- `_get_month_name`: `months[month - 1]` (only reached for a month a valid
date construction let through). -/
def getMonthName (m : Nat) : String := monthNames.getD (m - 1) ""

/-- `{n:02d}`. -/
def pad2 (n : Nat) : String := if n < 10 then "0" ++ toString n else toString n

/-- `OperationMode`. -/
inductive OperationMode where
  | MOVE
  | OPTIMIZE_MOVE
deriving DecidableEq

/-- The organizer's configuration fields used by the pipeline. -/
structure Config where
  target_dir : FPath
  mode : OperationMode
  keep_original : Bool

/-- `_create_target_path`: `none` when the pattern does not match; otherwise
`target_dir / "{year}-{month:02d}-{month_name}" / "Week{week:02d}" /
filename`.  A `ValueError` raised by the `datetime` construction inside
`_get_week_of_year` propagates. -/
def createTargetPath (cfg : Config) (filename : String) : Except String (Option FPath) :=
  match parseDateFromFilename filename with
  | none => .ok none
  | some (y, m, d) =>
    match getWeekOfYear y m d with
    | .error e => .error e
    | .ok week =>
      .ok (some (cfg.target_dir ++
        [toString y ++ "-" ++ pad2 m ++ "-" ++ getMonthName m,
         "Week" ++ pad2 week, filename]))

/-- `ProcessResult` (per-file outcome record).  The wall-clock
`optimization_time` field is not modelled. -/
structure ProcessResult where
  source_path : FPath
  target_path : Option FPath
  success : Bool
  error_message : Option String := none
  original_size : Option Nat := none
  compressed_size : Option Nat := none
  compression_ratio : Option (Int × Nat) := none
  pngquant_status : Option String := none
deriving DecidableEq

/-- `(original_size - compressed_size) / original_size * 100 if original_size
> 0 else 0`.  The float value is represented exactly as a fraction
(numerator, positive denominator). -/
def compressionRatio (original compressed : Nat) : Int × Nat :=
  if 0 < original then (((original : Int) - (compressed : Int)) * 100, original) else (0, 1)

/-- The zero ratio `0.0` as a fraction. -/
def ratioZero : Int × Nat := (0, 1)

/-- Comparison of two fractions with positive denominators. -/
def ratioLt (x y : Int × Nat) : Bool := x.1 * (y.2 : Int) < y.1 * (x.2 : Int)

/-- The non-PNG branch of `_optimize_with_pngquant` (lines 172-200): plain
relocation inside a `try` that reports `skipped_non_png` on success and a
per-file `error` on any exception. -/
def nonPngBranch (env : Env) (keep : Bool) (source target : FPath)
    (originalSize : Nat) (st : St) : ProcessResult × St :=
  match opBind (mkdirParents env (pathParent target) st) (fun _ st =>
        if keep then copy2 env source target st else moveFile env source target st) with
  | .ok _ st =>
    ({ source_path := source, target_path := some target, success := true,
       original_size := some originalSize, compressed_size := some originalSize,
       compression_ratio := some ratioZero, pngquant_status := some "skipped_non_png" }, st)
  | .err e st =>
    ({ source_path := source, target_path := some target, success := false,
       error_message := some e, original_size := some originalSize,
       pngquant_status := some "error" }, st)

/-- The `try` block of the PNG path of `_optimize_with_pngquant`
(lines 206-256): stage into the temporary file, run `pngquant`, ensure the
destination directory, then move either the optimized bytes (exit 0,
`optimized`) or the untouched staged copy (any non-zero exit,
`skipped_larger`) to the destination, unlinking the source unless
`keep_original`. -/
def pngTryBody (env : Env) (keep : Bool) (source target temp : FPath)
    (originalSize : Nat) (st : St) : OpResult ProcessResult :=
  opBind (copy2 env source temp st) (fun _ st =>
  opBind (runPngquant env temp st) (fun ret st =>
  opBind (mkdirParents env (pathParent target) st) (fun _ st =>
  if ret = 0 then
    opBind (statSize temp st) (fun compressedSize st =>
    opBind (moveFile env temp target st) (fun _ st =>
    opBind (if keep then .ok () st else unlinkFile source st) (fun _ st =>
      .ok { source_path := source, target_path := some target,
            success := true, original_size := some originalSize,
            compressed_size := some compressedSize,
            compression_ratio := some (compressionRatio originalSize compressedSize),
            pngquant_status := some "optimized" } st)))
  else
    opBind (moveFile env temp target st) (fun _ st =>
    opBind (if keep then .ok () st else unlinkFile source st) (fun _ st =>
      .ok { source_path := source, target_path := some target,
            success := true, original_size := some originalSize,
            compressed_size := some originalSize,
            compression_ratio := some ratioZero,
            pngquant_status := some "skipped_larger" } st)))))

/-- Lines 259-261: `if temp_path.exists(): temp_path.unlink()`. -/
def cleanTemp (temp : FPath) (st : St) : St :=
  if (fsStat st.fs temp).isSome then { st with fs := fsRemove st.fs temp } else st

/-- The `except` handler of the PNG path (lines 258-290): remove the
temporary file when it still exists, then fall back to a plain relocation
of the untouched original, deciding between `error_fallback` and a hard
`error`. -/
def exceptFallback (env : Env) (keep : Bool) (source target temp : FPath)
    (originalSize : Nat) (e : String) (st : St) : OpResult ProcessResult :=
  match (if keep then copy2 env source target (cleanTemp temp st)
         else moveFile env source target (cleanTemp temp st)) with
  | .ok _ st =>
    .ok { source_path := source, target_path := some target, success := true,
          original_size := some originalSize, compressed_size := some originalSize,
          compression_ratio := some ratioZero, pngquant_status := some "error_fallback",
          error_message := some ("Optimization failed, fallback successful: " ++ e) } st
  | .err e2 st =>
    .ok { source_path := source, target_path := some target, success := false,
          original_size := some originalSize,
          pngquant_status := some "error",
          error_message := some ("Both optimization and fallback failed: " ++ e2) } st

/-- `_optimize_with_pngquant` (lines 166-290).  The initial
`source_path.stat()` is outside every `try` and its exception propagates.
The `try` body is `pngTryBody`; its exception is caught by
`exceptFallback`. -/
def optimizeWithPngquant (env : Env) (keep : Bool) (source target temp : FPath)
    (st : St) : OpResult ProcessResult :=
  match statSize source st with
  | .err e st => .err e st
  | .ok originalSize st =>
    if ¬ isPngName (pathName source) then
      match nonPngBranch env keep source target originalSize st with
      | (r, st) => .ok r st
    else
      match pngTryBody env keep source target temp originalSize
          { st with fs := fsWrite st.fs temp 0 } with
      | .ok r st => .ok r st
      | .err e st => exceptFallback env keep source target temp originalSize e st

/-- The MOVE-mode branch of the loop body of `organize_files`
(lines 330-351): `mkdir`, `shutil.move`, and only then
`file_path.stat()` — on the already-moved source — inside one `try`. -/
def moveBranch (env : Env) (file target : FPath) (st : St) : ProcessResult × St :=
  match opBind (mkdirParents env (pathParent target) st) (fun _ st =>
        opBind (moveFile env file target st) (fun _ st =>
        statSize file st)) with
  | .ok originalSize st =>
    ({ source_path := file, target_path := some target, success := true,
       original_size := some originalSize, compressed_size := some originalSize,
       compression_ratio := some ratioZero, pngquant_status := some "move_only" }, st)
  | .err e st =>
    ({ source_path := file, target_path := some target, success := false,
       error_message := some e, pngquant_status := some "error" }, st)

/-- Loop accumulator of `organize_files`. -/
structure LoopAcc where
  results : List ProcessResult
  created : List FPath
  processed : Nat
  failed : Nat
deriving DecidableEq

/-- `created_folders.add` (Python set semantics, membership only). -/
def addCreated (created : List FPath) (p : FPath) : List FPath :=
  if p ∈ created then created else created ++ [p]

/-- The record appended when the filename does not classify (lines 307-312). -/
def cannotParseResult (file : FPath) : ProcessResult :=
  { source_path := file, target_path := none, success := false,
    error_message := some "Could not parse date from filename" }

/-- The record appended in preview mode (lines 317-321). -/
def previewResult (file target : FPath) : ProcessResult :=
  { source_path := file, target_path := some target, success := true }

/-- The record a preview iteration produces for one file, as dictated by
lines 306-324: a success carrying the would-be destination when the file
classifies, the cannot-parse failure otherwise. -/
def previewOutcome (cfg : Config) (f : FPath) : ProcessResult :=
  match createTargetPath cfg (pathName f) with
  | .ok (some t) => previewResult f t
  | _ => cannotParseResult f

/-- One iteration of the loop of `organize_files` (lines 300-359).  The
`ValueError` of `_create_target_path` — and, in optimization mode, the
uncaught initial `stat` — propagate and abort the whole run. -/
def processOne (env : Env) (cfg : Config) (previewOnly : Bool) (file : FPath)
    (acc : LoopAcc) (st : St) : OpResult LoopAcc :=
  match createTargetPath cfg (pathName file) with
  | .error e => .err e st
  | .ok none =>
    .ok { acc with results := acc.results ++ [cannotParseResult file],
                   failed := acc.failed + 1 } st
  | .ok (some target) =>
    if previewOnly then
      .ok { acc with results := acc.results ++ [previewResult file target],
                     created := addCreated acc.created (pathParent target),
                     processed := acc.processed + 1 } st
    else
      match (if cfg.mode = OperationMode.OPTIMIZE_MOVE then
               optimizeWithPngquant env cfg.keep_original file target (env.tempPath file) st
             else
               match moveBranch env file target st with
               | (r, st) => .ok r st) with
      | .err e st => .err e st
      | .ok r st =>
        .ok { acc with results := acc.results ++ [r],
                       created := addCreated acc.created (pathParent target),
                       processed := acc.processed + (if r.success then 1 else 0),
                       failed := acc.failed + (if r.success then 0 else 1) } st

/-- The loop of `organize_files` over the discovered list. -/
def organizeLoop (env : Env) (cfg : Config) (previewOnly : Bool) :
    List FPath → LoopAcc → St → OpResult LoopAcc
  | [], acc, st => .ok acc st
  | f :: fs, acc, st =>
    match processOne env cfg previewOnly f acc st with
    | .err e st => .err e st
    | .ok acc st => organizeLoop env cfg previewOnly fs acc st

/-- Python truthiness of an optional size (`if r.original_size`). -/
def optTruthy : Option Nat → Bool
  | some n => n ≠ 0
  | none => false

/-- `sum(r.original_size for r in results if r.original_size)`. -/
def totalOriginalOf (rs : List ProcessResult) : Nat :=
  (rs.map (fun r => if optTruthy r.original_size then r.original_size.getD 0 else 0)).sum

/-- `sum(r.compressed_size for r in results if r.compressed_size)`. -/
def totalCompressedOf (rs : List ProcessResult) : Nat :=
  (rs.map (fun r => if optTruthy r.compressed_size then r.compressed_size.getD 0 else 0)).sum

/-- The `optimization_stats` dictionary (lines 366-372). -/
structure OptimizationStats where
  optimized_count : Nat
  skipped_non_png : Nat
  skipped_larger : Nat
  error_count : Nat
  average_compression : Int × Nat
deriving DecidableEq

/-- Characterwise substring test (`"error" in r.pngquant_status`). -/
def charsAtHead : List Char → List Char → Bool
  | [], _ => true
  | _ :: _, [] => false
  | a :: as, b :: bs => a == b && charsAtHead as bs

/-- Substring occurrence anywhere. -/
def charsContain (needle : List Char) : List Char → Bool
  | [] => needle.isEmpty
  | b :: bs => charsAtHead needle (b :: bs) || charsContain needle bs

/-- `r.pngquant_status and "error" in r.pngquant_status`. -/
def statusHasError (s : Option String) : Bool :=
  match s with
  | none => false
  | some s => charsContain "error".toList s.toList

/-- Build `optimization_stats` from the result list and the size totals. -/
def mkStats (rs : List ProcessResult) (totalOriginal : Nat) (totalSavings : Int) :
    OptimizationStats :=
  { optimized_count := (rs.filter (fun r => r.pngquant_status == some "optimized")).length,
    skipped_non_png := (rs.filter (fun r => r.pngquant_status == some "skipped_non_png")).length,
    skipped_larger := (rs.filter (fun r => r.pngquant_status == some "skipped_larger")).length,
    error_count := (rs.filter (fun r => statusHasError r.pngquant_status)).length,
    average_compression :=
      if 0 < totalOriginal then (totalSavings * 100, totalOriginal) else ratioZero }

/-- `OrganizeResult`. -/
structure OrganizeResult where
  total_files : Nat
  processed_files : Nat
  failed_files : Nat
  created_folders : List FPath
  results : List ProcessResult
  total_original_size : Nat
  total_compressed_size : Nat
  total_savings : Int
  optimization_stats : Option OptimizationStats
deriving DecidableEq

/-- `organize_files(preview_only)` (lines 292-384), parametrized by the
discovered candidate list (the sorted output of `find_screenshot_files`). -/
def organizeFiles (env : Env) (cfg : Config) (files : List FPath)
    (previewOnly : Bool) (st : St) : OpResult OrganizeResult :=
  match organizeLoop env cfg previewOnly files ⟨[], [], 0, 0⟩ st with
  | .err e st => .err e st
  | .ok acc st =>
    let totalOriginal := totalOriginalOf acc.results
    let totalCompressed := totalCompressedOf acc.results
    let totalSavings : Int := (totalOriginal : Int) - (totalCompressed : Int)
    .ok { total_files := files.length,
          processed_files := acc.processed,
          failed_files := acc.failed,
          created_folders := acc.created,
          results := acc.results,
          total_original_size := totalOriginal,
          total_compressed_size := totalCompressed,
          total_savings := totalSavings,
          optimization_stats := some (mkStats acc.results totalOriginal totalSavings) } st

/-- The unit list of `_format_size`. -/
def sizeUnits : List String := ["B", "KB", "MB", "GB"]

/-- Number of divisions by 1024 performed by the loop of `_format_size`. -/
def fsUnitIndex (n : Nat) : Nat :=
  if 1024 ^ 3 ≤ n then 3 else if 1024 ^ 2 ≤ n then 2 else if 1024 ≤ n then 1 else 0

/-- `_format_size`: human-readable size; the float division and `{:.1f}`
rendering are modelled exactly in truncated tenths. -/
def formatSize (n : Nat) : String :=
  if n = 0 then "0 B"
  else
    let i := fsUnitIndex n
    let unit := sizeUnits.getD i ""
    if i = 0 then toString n ++ " " ++ unit
    else
      let tenths := n * 10 / 1024 ^ i
      toString (tenths / 10) ++ "." ++ toString (tenths % 10) ++ " " ++ unit

/-- `_format_size` applied to the (possibly negative) savings total. -/
def formatSizeInt (i : Int) : String :=
  if i < 0 then toString i ++ " B" else formatSize i.toNat

/-- `{q:.1f}` for a fraction, in truncated tenths. -/
def fmtTenths (q : Int × Nat) : String :=
  let sign := if q.1 < 0 then "-" else ""
  let tenths := (q.1.natAbs * 10) / q.2
  sign ++ toString (tenths / 10) ++ "." ++ toString (tenths % 10)

/-- `x.compression_ratio or 0`, the sort key of the best-compression list. -/
def ratioKey (r : ProcessResult) : Int × Nat := r.compression_ratio.getD ratioZero

/-- Insertion step of the descending sort by compression ratio. -/
def insertDesc (r : ProcessResult) : List ProcessResult → List ProcessResult
  | [] => [r]
  | x :: xs => if ratioLt (ratioKey x) (ratioKey r) then r :: x :: xs else x :: insertDesc r xs

/-- `sorted(..., key=lambda x: x.compression_ratio or 0, reverse=True)`. -/
def sortByRatioDesc : List ProcessResult → List ProcessResult
  | [] => []
  | x :: xs => insertDesc x (sortByRatioDesc xs)

/-- One line of the best-compression highlight (lines 438-440). -/
def bestLine (r : ProcessResult) : String :=
  "   - " ++ pathName r.source_path ++ ": " ++
    fmtTenths (r.compression_ratio.getD ratioZero) ++ "% (" ++
    formatSize (r.original_size.getD 0) ++ " -> " ++
    formatSize (r.compressed_size.getD 0) ++ ")\n"

/-- `generate_compression_report` (lines 404-442): a pure rendering of the
`OrganizeResult` and the `keep_original` configuration flag.  The literal
label text is transliterated; the data slots, conditions, and ordering
follow the source. -/
def generateCompressionReport (keepOriginal : Bool) (result : OrganizeResult) : String :=
  match result.optimization_stats with
  | none => "No optimization statistics available."
  | some stats =>
    let base :=
      "\nScreenshot organization report\n" ++
      "====================================\n" ++
      "Processing overview:\n" ++
      "   - total files: " ++ toString result.total_files ++ "\n" ++
      "   - processed: " ++ toString result.processed_files ++ "\n" ++
      "   - failed: " ++ toString result.failed_files ++ "\n\n" ++
      "Storage optimization:\n" ++
      "   - original total: " ++ formatSize result.total_original_size ++
        (if keepOriginal then " (kept)" else " (deleted)") ++ "\n" ++
      "   - compressed total: " ++ formatSize result.total_compressed_size ++ "\n" ++
      "   - saved: " ++ formatSizeInt result.total_savings ++
        " (" ++ fmtTenths stats.average_compression ++ "%)\n\n" ++
      "Optimization detail:\n" ++
      "   - optimized: " ++ toString stats.optimized_count ++ "\n" ++
      "   - non-PNG: " ++ toString stats.skipped_non_png ++ "\n" ++
      "   - skipped (would grow): " ++ toString stats.skipped_larger ++ "\n" ++
      "   - errors: " ++ toString stats.error_count ++ "\n\n" ++
      "Folders created: " ++ toString result.created_folders.length ++ "\n"
    let interesting := result.results.filter
      (fun r => ratioLt (50, 1) (r.compression_ratio.getD ratioZero))
    let section2 :=
      if interesting.isEmpty then ""
      else "\nBest compression (top 5):\n" ++
        String.join (((sortByRatioDesc interesting).take 5).map bestLine)
    (base ++ section2).trim

/-- The derived numbers the report renders, independently obtainable. -/
def reportTotals (result : OrganizeResult) : Nat × Nat × Nat × Nat × Nat × Int × Option OptimizationStats :=
  (result.total_files, result.processed_files, result.failed_files,
   result.total_original_size, result.total_compressed_size,
   result.total_savings, result.optimization_stats)

/-- `generate_compression_report` as a state function: the method performs
no filesystem operation, so the state passes through untouched. -/
def reportRun (keepOriginal : Bool) (result : OrganizeResult) (st : St) : String × St :=
  (generateCompressionReport keepOriginal result, st)

/-- The payload of a normal exit, `none` on an exception. -/
def okValue {α : Type} : OpResult α → Option α
  | .ok a _ => some a
  | .err _ _ => none

/-! Concrete fixtures used by witnesses and counterexamples. -/

/-- A filename matching the default pattern (spec scenario A). -/
def fnGood : String := "Screenshot 2023-03-15 at 10.00.00.png"

/-- A filename matching the pattern with an out-of-range month. -/
def fnBad13 : String := "Screenshot 2023-13-01 at 10.00.00.png"

/-- A filename the pattern does not match. -/
def fnNoMatch : String := "notes.txt"

def srcGood : FPath := ["Desktop", fnGood]

def srcBad13 : FPath := ["Desktop", fnBad13]

def srcNoMatch : FPath := ["Desktop", fnNoMatch]

def tgtGood : FPath := ["Screenshots", "2023-03-March", "Week11", fnGood]

def tmp0 : FPath := ["tmp", "stage.png"]

/-- Optimization-mode configuration over the fixture target root. -/
def cfg0 : Config :=
  { target_dir := ["Screenshots"], mode := .OPTIMIZE_MOVE, keep_original := false }

/-- Plain-move configuration over the fixture target root. -/
def cfgMove : Config :=
  { target_dir := ["Screenshots"], mode := .MOVE, keep_original := false }

/-- Benign environment: no primitive fails, `pngquant` exits 0 and halves
the file. -/
def envBase : Env :=
  { copyFails := fun _ _ => false, moveFails := fun _ _ => false,
    mkdirFails := fun _ => false, pngquantThrows := false, pngquantRet := 0,
    pngquantSize := fun n => n / 2, tempPath := fun _ => tmp0 }

/-- Initial state: the one good source file, of size 100. -/
def st0 : St := { fs := [(srcGood, 100)], dirs := [] }

/-- Optimizer always exits 1 (non-zero, without throwing). -/
def envRet1 : Env := { envBase with pngquantRet := 1 }

/-- Optimizer executable missing: `subprocess.run` raises. -/
def envNoTool : Env := { envBase with pngquantThrows := true }

/-- Every `shutil.move` fails. -/
def envMoveFail : Env := { envBase with moveFails := fun _ _ => true }

/-- Initial state holding the month-13 file and the good file. -/
def st13 : St := { fs := [(srcBad13, 50), (srcGood, 100)], dirs := [] }

/-- Initial state for the preview scenario: one matching and one
non-matching file. -/
def stPrev : St := { fs := [(srcGood, 100), (srcNoMatch, 7)], dirs := [] }

/-- The destination directory of the good file. -/
def weekDir : FPath := ["Screenshots", "2023-03-March", "Week11"]

/-- The `OrganizeResult` of the benign optimization run over `[srcGood]`. -/
def resOptW : OrganizeResult :=
  { total_files := 1, processed_files := 1, failed_files := 0,
    created_folders := [weekDir],
    results := [{ source_path := srcGood, target_path := some tgtGood, success := true,
                  original_size := some 100, compressed_size := some 50,
                  compression_ratio := some (5000, 100),
                  pngquant_status := some "optimized" }],
    total_original_size := 100, total_compressed_size := 50, total_savings := 50,
    optimization_stats := some { optimized_count := 1, skipped_non_png := 0,
                                 skipped_larger := 0, error_count := 0,
                                 average_compression := (5000, 100) } }

/-- The final state of the benign optimization run over `[srcGood]`. -/
def stOptW : St := { fs := [(tgtGood, 50)], dirs := [weekDir] }

/-- The `OrganizeResult` of the preview run over `[srcGood, srcNoMatch]`. -/
def resPreviewW : OrganizeResult :=
  { total_files := 2, processed_files := 1, failed_files := 1,
    created_folders := [weekDir],
    results := [previewResult srcGood tgtGood, cannotParseResult srcNoMatch],
    total_original_size := 0, total_compressed_size := 0, total_savings := 0,
    optimization_stats := some { optimized_count := 0, skipped_non_png := 0,
                                 skipped_larger := 0, error_count := 0,
                                 average_compression := (0, 1) } }

/-- The `OrganizeResult` of the MOVE-mode run over `[srcGood]` whose move
fails. -/
def resMoveFailW : OrganizeResult :=
  { total_files := 1, processed_files := 0, failed_files := 1,
    created_folders := [weekDir],
    results := [{ source_path := srcGood, target_path := some tgtGood, success := false,
                  error_message := some "move failed",
                  pngquant_status := some "error" }],
    total_original_size := 0, total_compressed_size := 0, total_savings := 0,
    optimization_stats := some { optimized_count := 0, skipped_non_png := 0,
                                 skipped_larger := 0, error_count := 1,
                                 average_compression := (0, 1) } }

/-- The final state of that failed-move run. -/
def stMoveFailW : St := { fs := [(srcGood, 100)], dirs := [weekDir] }

/-- The `OrganizeResult` of the benign MOVE-mode run over `[srcGood]`: the
move succeeds, yet the post-move `stat` of the source raises. -/
def resMoveBugW : OrganizeResult :=
  { total_files := 1, processed_files := 0, failed_files := 1,
    created_folders := [weekDir],
    results := [{ source_path := srcGood, target_path := some tgtGood, success := false,
                  error_message := some "FileNotFoundError",
                  pngquant_status := some "error" }],
    total_original_size := 0, total_compressed_size := 0, total_savings := 0,
    optimization_stats := some { optimized_count := 0, skipped_non_png := 0,
                                 skipped_larger := 0, error_count := 1,
                                 average_compression := (0, 1) } }

/-- The final state of that run: the file IS at its destination. -/
def stMoveBugW : St := { fs := [(tgtGood, 100)], dirs := [weekDir] }

/-- The per-file record of the non-zero-exit optimization attempt. -/
def recSkipW : ProcessResult :=
  { source_path := srcGood, target_path := some tgtGood, success := true,
    original_size := some 100, compressed_size := some 100,
    compression_ratio := some (0, 1), pngquant_status := some "skipped_larger" }

/-- The final state of the non-zero-exit optimization attempt. -/
def stSkipW : St := { fs := [(tgtGood, 100)], dirs := [weekDir] }

/-- The `OrganizeResult` of the missing-optimizer run over `[srcGood]`. -/
def resNoToolW : OrganizeResult :=
  { total_files := 1, processed_files := 1, failed_files := 0,
    created_folders := [weekDir],
    results := [{ source_path := srcGood, target_path := some tgtGood, success := true,
                  error_message := some
                    "Optimization failed, fallback successful: FileNotFoundError: pngquant",
                  original_size := some 100, compressed_size := some 100,
                  compression_ratio := some (0, 1),
                  pngquant_status := some "error_fallback" }],
    total_original_size := 100, total_compressed_size := 100, total_savings := 0,
    optimization_stats := some { optimized_count := 0, skipped_non_png := 0,
                                 skipped_larger := 0, error_count := 1,
                                 average_compression := (0, 100) } }

/-- The final state of the missing-optimizer run: the subprocess raised
before `mkdir`, so no directory was created; the file is at its
destination via the fallback move. -/
def stNoToolW : St := { fs := [(tgtGood, 100)], dirs := [] }

/-! Basic lemmas about the filesystem model. -/

theorem fsStat_fsRemove (fs : FS) (p q : FPath) :
    fsStat (fsRemove fs p) q = if q = p then none else fsStat fs q := by
  induction fs with
  | nil => simp [fsRemove, fsStat]
  | cons e fs ih =>
    by_cases hep : e.1 = p
    · rw [show fsRemove (e :: fs) p = fsRemove fs p by simp [fsRemove, hep], ih]
      by_cases hqp : q = p
      · simp [hqp]
      · have hne : e.1 ≠ q := fun h => hqp (by rw [← h, hep])
        simp [hqp, fsStat, hne]
    · rw [show fsRemove (e :: fs) p = e :: fsRemove fs p by simp [fsRemove, hep]]
      by_cases heq : e.1 = q
      · have hqp : q ≠ p := fun h => hep (heq.trans h)
        simp [fsStat, heq, hqp]
      · simp [fsStat, heq, ih]

theorem fsStat_fsWrite (fs : FS) (p q : FPath) (sz : Nat) :
    fsStat (fsWrite fs p sz) q = if q = p then some sz else fsStat fs q := by
  by_cases h : q = p
  · simp [fsWrite, fsStat, h]
  · simp [fsWrite, fsStat, h, fsStat_fsRemove, Ne.symm h]

theorem mem_addCreated (created : List FPath) (p d : FPath) :
    d ∈ addCreated created p ↔ d ∈ created ∨ d = p := by
  unfold addCreated
  by_cases h : p ∈ created
  · simp only [if_pos h]
    constructor
    · exact Or.inl
    · rintro (hd | rfl)
      · exact hd
      · exact h
  · simp [if_neg h]

/-! Inversion lemmas for the primitives and the sequencing combinator. -/

theorem opBind_ok {α β : Type} {x : OpResult α} {f : α → St → OpResult β} {b : β} {st' : St}
    (h : opBind x f = .ok b st') : ∃ a st1, x = .ok a st1 ∧ f a st1 = .ok b st' := by
  cases x with
  | ok a st1 => exact ⟨a, st1, rfl, h⟩
  | err e st1 => exact absurd h (by simp [opBind])

theorem opBind_err {α β : Type} {x : OpResult α} {f : α → St → OpResult β} {e : String} {st' : St}
    (h : opBind x f = .err e st') :
    x = .err e st' ∨ ∃ a st1, x = .ok a st1 ∧ f a st1 = .err e st' := by
  cases x with
  | ok a st1 => exact Or.inr ⟨a, st1, rfl, h⟩
  | err e1 st1 => exact Or.inl (by simpa [opBind] using h)

theorem statSize_ok {p : FPath} {st : St} {sz : Nat} {st' : St}
    (h : statSize p st = .ok sz st') : fsStat st.fs p = some sz ∧ st' = st := by
  unfold statSize at h
  split at h
  · cases h; simp_all
  · exact absurd h (by simp)

theorem statSize_err {p : FPath} {st : St} {e : String} {st' : St}
    (h : statSize p st = .err e st') : st' = st ∧ fsStat st.fs p = none := by
  unfold statSize at h
  split at h
  · exact absurd h (by simp)
  · cases h; simp_all

theorem copy2_ok {env : Env} {src dst : FPath} {st : St} {a : Unit} {st' : St}
    (h : copy2 env src dst st = .ok a st') :
    ∃ sz, fsStat st.fs src = some sz ∧ st' = { st with fs := fsWrite st.fs dst sz } := by
  unfold copy2 at h
  split at h
  · exact absurd h (by simp)
  · split at h
    · exact absurd h (by simp)
    · cases h; simp_all

theorem copy2_err {env : Env} {src dst : FPath} {st : St} {e : String} {st' : St}
    (h : copy2 env src dst st = .err e st') : st' = st := by
  unfold copy2 at h
  split at h
  · cases h; rfl
  · split at h
    · cases h; rfl
    · exact absurd h (by simp)

theorem moveFile_ok {env : Env} {src dst : FPath} {st : St} {a : Unit} {st' : St}
    (h : moveFile env src dst st = .ok a st') :
    ∃ sz, fsStat st.fs src = some sz ∧
      st' = { st with fs := fsWrite (fsRemove st.fs src) dst sz } := by
  unfold moveFile at h
  split at h
  · exact absurd h (by simp)
  · split at h
    · exact absurd h (by simp)
    · cases h; simp_all

theorem moveFile_err {env : Env} {src dst : FPath} {st : St} {e : String} {st' : St}
    (h : moveFile env src dst st = .err e st') : st' = st := by
  unfold moveFile at h
  split at h
  · cases h; rfl
  · split at h
    · cases h; rfl
    · exact absurd h (by simp)

theorem mkdirParents_ok {env : Env} {d : FPath} {st : St} {a : Unit} {st' : St}
    (h : mkdirParents env d st = .ok a st') : st'.fs = st.fs := by
  unfold mkdirParents at h
  split at h
  · exact absurd h (by simp)
  · cases h; rfl

theorem mkdirParents_err {env : Env} {d : FPath} {st : St} {e : String} {st' : St}
    (h : mkdirParents env d st = .err e st') : st' = st := by
  unfold mkdirParents at h
  split at h
  · cases h; rfl
  · exact absurd h (by simp)

theorem unlinkFile_ok {p : FPath} {st : St} {a : Unit} {st' : St}
    (h : unlinkFile p st = .ok a st') : st' = { st with fs := fsRemove st.fs p } := by
  unfold unlinkFile at h
  split at h
  · cases h; rfl
  · exact absurd h (by simp)

theorem unlinkFile_err {p : FPath} {st : St} {e : String} {st' : St}
    (h : unlinkFile p st = .err e st') : st' = st := by
  unfold unlinkFile at h
  split at h
  · exact absurd h (by simp)
  · cases h; rfl

theorem runPngquant_ok {env : Env} {temp : FPath} {st : St} {ret : Nat} {st' : St}
    (h : runPngquant env temp st = .ok ret st') :
    st'.fs = st.fs ∨ ∃ sz, st'.fs = fsWrite st.fs temp sz := by
  unfold runPngquant at h
  split at h
  · exact absurd h (by simp)
  · split at h
    · split at h
      · cases h; exact Or.inr ⟨_, rfl⟩
      · cases h; exact Or.inl rfl
    · cases h; exact Or.inl rfl

theorem runPngquant_err {env : Env} {temp : FPath} {st : St} {e : String} {st' : St}
    (h : runPngquant env temp st = .err e st') : st' = st := by
  unfold runPngquant at h
  split at h
  · cases h; rfl
  · split at h
    · split at h <;> exact absurd h (by simp)
    · exact absurd h (by simp)

/-- On a normal exit of the `try` block of the PNG path, the staged
temporary file has been moved away. -/
theorem pngTryBody_ok_temp_gone {env : Env} {keep : Bool} {source target temp : FPath}
    {osz : Nat} {st : St} {r : ProcessResult} {st' : St}
    (hts : temp ≠ source) (htt : temp ≠ target)
    (h : pngTryBody env keep source target temp osz st = .ok r st') :
    fsStat st'.fs temp = none := by
  unfold pngTryBody at h
  obtain ⟨u1, st1, hc, h⟩ := opBind_ok h
  obtain ⟨ret, st2, hr, h⟩ := opBind_ok h
  obtain ⟨u3, st3, hm, h⟩ := opBind_ok h
  by_cases hret : ret = 0
  · rw [if_pos hret] at h
    obtain ⟨csz, st4, hs, h⟩ := opBind_ok h
    obtain ⟨u5, st5, hmv, h⟩ := opBind_ok h
    obtain ⟨sz5, hsrc5, hst5⟩ := moveFile_ok hmv
    obtain ⟨u6, st6, hk, h⟩ := opBind_ok h
    have h5 : fsStat st5.fs temp = none := by
      rw [hst5]; simp [fsStat_fsWrite, fsStat_fsRemove, htt]
    have h6 : fsStat st6.fs temp = none := by
      by_cases hkeep : keep
      · rw [if_pos hkeep] at hk; cases hk; exact h5
      · rw [if_neg hkeep] at hk
        rw [unlinkFile_ok hk]
        simp [fsStat_fsRemove, hts, h5]
    cases h
    exact h6
  · rw [if_neg hret] at h
    obtain ⟨u5, st5, hmv, h⟩ := opBind_ok h
    obtain ⟨sz5, hsrc5, hst5⟩ := moveFile_ok hmv
    obtain ⟨u6, st6, hk, h⟩ := opBind_ok h
    have h5 : fsStat st5.fs temp = none := by
      rw [hst5]; simp [fsStat_fsWrite, fsStat_fsRemove, htt]
    have h6 : fsStat st6.fs temp = none := by
      by_cases hkeep : keep
      · rw [if_pos hkeep] at hk; cases hk; exact h5
      · rw [if_neg hkeep] at hk
        rw [unlinkFile_ok hk]
        simp [fsStat_fsRemove, hts, h5]
    cases h
    exact h6

/-- The non-PNG relocation never touches the staging path. -/
theorem nonPngBranch_temp_none (env : Env) (keep : Bool) (source target temp : FPath)
    (osz : Nat) (st : St)
    (h0 : fsStat st.fs temp = none) (hts : temp ≠ source) (htt : temp ≠ target) :
    fsStat (nonPngBranch env keep source target osz st).2.fs temp = none := by
  unfold nonPngBranch
  rcases hx : opBind (mkdirParents env (pathParent target) st) (fun _ st =>
      if keep then copy2 env source target st else moveFile env source target st) with
    ⟨a, st2⟩ | ⟨e, st2⟩
  · obtain ⟨_, st1, hm, hcm⟩ := opBind_ok hx
    have h1 : st1.fs = st.fs := mkdirParents_ok hm
    by_cases hkeep : keep
    · rw [if_pos hkeep] at hcm
      obtain ⟨sz, -, rfl⟩ := copy2_ok hcm
      simp [fsStat_fsWrite, htt, h1, h0]
    · rw [if_neg hkeep] at hcm
      obtain ⟨sz, -, rfl⟩ := moveFile_ok hcm
      simp [fsStat_fsWrite, fsStat_fsRemove, htt, hts, h1, h0]
  · rcases opBind_err hx with hm | ⟨a, st1, hm, hcm⟩
    · have h2 := mkdirParents_err hm
      simp [h2, h0]
    · have h1 : st1.fs = st.fs := mkdirParents_ok hm
      by_cases hkeep : keep
      · rw [if_pos hkeep] at hcm
        have h2 := copy2_err hcm
        simp [h2, h1, h0]
      · rw [if_neg hkeep] at hcm
        have h2 := moveFile_err hcm
        simp [h2, h1, h0]

/-- The cleanup of lines 259-261 always leaves the staging path absent. -/
theorem cleanTemp_temp_none (temp : FPath) (st : St) :
    fsStat (cleanTemp temp st).fs temp = none := by
  unfold cleanTemp
  by_cases hex : (fsStat st.fs temp).isSome = true
  · simp [hex, fsStat_fsRemove]
  · simp only [hex, if_false]
    exact Option.not_isSome_iff_eq_none.mp (by simpa using hex)

/-- The `except` handler leaves the staging path absent on both of its
outcomes. -/
theorem exceptFallback_temp_none {env : Env} {keep : Bool} {source target temp : FPath}
    {osz : Nat} {e : String} {st : St} (hts : temp ≠ source) (htt : temp ≠ target) :
    fsStat (finalSt (exceptFallback env keep source target temp osz e st)).fs temp = none := by
  unfold exceptFallback
  have hC := cleanTemp_temp_none temp st
  by_cases hkeep : keep
  · rw [if_pos hkeep]
    rcases hcp : copy2 env source target (cleanTemp temp st) with ⟨a, stD⟩ | ⟨e2, stD⟩
    · obtain ⟨sz, -, hst⟩ := copy2_ok hcp
      show fsStat stD.fs temp = none
      rw [hst]
      simpa [fsStat_fsWrite, htt] using hC
    · show fsStat stD.fs temp = none
      rw [copy2_err hcp]
      exact hC
  · rw [if_neg hkeep]
    rcases hmv : moveFile env source target (cleanTemp temp st) with ⟨a, stD⟩ | ⟨e2, stD⟩
    · obtain ⟨sz, -, hst⟩ := moveFile_ok hmv
      show fsStat stD.fs temp = none
      rw [hst]
      simp [fsStat_fsWrite, fsStat_fsRemove, htt, hts, hC]
    · show fsStat stD.fs temp = none
      rw [moveFile_err hmv]
      exact hC

/-- **C6**: For every environment, flag and starting state in which the
staging path is fresh (absent, and distinct from the source and destination
paths), the optimization step ends with no staging file on every exit path —
optimized success, skipped, error with fallback success, error with fallback
failure, and even a propagated exception. -/
theorem c6_staging_file_never_leaked (env : Env) (keep : Bool)
    (source target temp : FPath) (st : St)
    (h0 : fsStat st.fs temp = none) (hts : temp ≠ source) (htt : temp ≠ target) :
    fsStat (finalSt (optimizeWithPngquant env keep source target temp st)).fs temp = none := by
  unfold optimizeWithPngquant
  rcases hstat : statSize source st with ⟨osz, st1⟩ | ⟨e, st1⟩
  · simp only [hstat]
    have h0' : fsStat st1.fs temp = none := by
      rw [(statSize_ok hstat).2]; exact h0
    by_cases hpng : isPngName (pathName source) = true
    · rw [if_neg (not_not_intro hpng)]
      rcases hb : pngTryBody env keep source target temp osz
          { st1 with fs := fsWrite st1.fs temp 0 } with ⟨r2, stB⟩ | ⟨e2, stB⟩
      · simp only [hb]
        exact pngTryBody_ok_temp_gone hts htt hb
      · simp only [hb]
        exact exceptFallback_temp_none hts htt
    · rw [if_pos hpng]
      rcases hnb : nonPngBranch env keep source target osz st1 with ⟨r, st2⟩
      simp only [hnb]
      have hn := nonPngBranch_temp_none env keep source target temp osz st1 h0' hts htt
      rw [hnb] at hn
      exact hn
  · simp only [hstat]
    show fsStat st1.fs temp = none
    rw [(statSize_err hstat).1]
    exact h0

/-! Lemmas about the per-file loop of `organize_files`. -/

/-- Each normally-completed iteration appends exactly one outcome and
increments exactly one of the processed/failed counters. -/
theorem processOne_ok_counts {env : Env} {cfg : Config} {p : Bool} {f : FPath}
    {acc : LoopAcc} {st : St} {acc' : LoopAcc} {st' : St}
    (h : processOne env cfg p f acc st = .ok acc' st') :
    acc'.results.length = acc.results.length + 1 ∧
    acc'.processed + acc'.failed = acc.processed + acc.failed + 1 := by
  unfold processOne at h
  split at h
  · exact absurd h (by simp)
  · cases h
    refine ⟨by simp, ?_⟩
    simp only []
    omega
  · split at h
    · cases h
      refine ⟨by simp, ?_⟩
      simp only []
      omega
    · split at h
      · exact absurd h (by simp)
      · rename_i r stR hr
        cases h
        refine ⟨by simp, ?_⟩
        by_cases hs : r.success = true <;> simp [hs] <;> omega

/-- A normally-completed run of the loop yields one outcome per file and as
many counter increments as files. -/
theorem organizeLoop_ok_counts {env : Env} {cfg : Config} {p : Bool} :
    ∀ (fl : List FPath) (acc : LoopAcc) (st : St) {acc' : LoopAcc} {st' : St},
    organizeLoop env cfg p fl acc st = .ok acc' st' →
    acc'.results.length = acc.results.length + fl.length ∧
    acc'.processed + acc'.failed = acc.processed + acc.failed + fl.length := by
  intro fl
  induction fl with
  | nil =>
    intro acc st acc' st' h
    simp only [organizeLoop] at h
    cases h
    simp
  | cons f fl ih =>
    intro acc st acc' st' h
    simp only [organizeLoop] at h
    rcases hp : processOne env cfg p f acc st with ⟨acc1, st1⟩ | ⟨e, st1⟩
    · rw [hp] at h
      obtain ⟨l1, c1⟩ := processOne_ok_counts hp
      obtain ⟨l2, c2⟩ := ih acc1 st1 h
      constructor <;> simp only [List.length_cons] <;> omega
    · rw [hp] at h
      exact absurd h (by simp)

/-- A preview iteration leaves the state untouched and appends the
record dictated by the classification. -/
theorem processOne_preview {env : Env} {cfg : Config} {f : FPath}
    {acc : LoopAcc} {st : St} {acc' : LoopAcc} {st' : St}
    (h : processOne env cfg true f acc st = .ok acc' st') :
    st' = st ∧ acc'.results = acc.results ++ [previewOutcome cfg f] := by
  unfold processOne at h
  split at h
  · exact absurd h (by simp)
  · rename_i hc
    cases h
    refine ⟨rfl, ?_⟩
    simp [previewOutcome, hc]
  · rename_i t hc
    rw [if_pos rfl] at h
    cases h
    refine ⟨rfl, ?_⟩
    simp [previewOutcome, hc]

/-- A preview run of the loop leaves the state untouched and produces
exactly the classification-derived records, in order. -/
theorem organizeLoop_preview {env : Env} {cfg : Config} :
    ∀ (fl : List FPath) (acc : LoopAcc) (st : St) {acc' : LoopAcc} {st' : St},
    organizeLoop env cfg true fl acc st = .ok acc' st' →
    st' = st ∧ acc'.results = acc.results ++ fl.map (previewOutcome cfg) := by
  intro fl
  induction fl with
  | nil =>
    intro acc st acc' st' h
    simp only [organizeLoop] at h
    cases h
    simp
  | cons f fl ih =>
    intro acc st acc' st' h
    simp only [organizeLoop] at h
    rcases hp : processOne env cfg true f acc st with ⟨acc1, st1⟩ | ⟨e, st1⟩
    · rw [hp] at h
      obtain ⟨hst1, hres1⟩ := processOne_preview hp
      obtain ⟨hst2, hres2⟩ := ih acc1 st1 h
      subst hst1
      refine ⟨hst2, ?_⟩
      rw [hres2, hres1]
      simp
    · rw [hp] at h
      exact absurd h (by simp)

/-- A completed iteration adds the destination parent to the created set
exactly when the file classifies to a destination — successful or not. -/
theorem processOne_created {env : Env} {cfg : Config} {p : Bool} {f : FPath}
    {acc : LoopAcc} {st : St} {acc' : LoopAcc} {st' : St}
    (h : processOne env cfg p f acc st = .ok acc' st') (d : FPath) :
    (d ∈ acc'.created ↔ d ∈ acc.created ∨
      ∃ t, createTargetPath cfg (pathName f) = .ok (some t) ∧ d = pathParent t) := by
  unfold processOne at h
  split at h
  · exact absurd h (by simp)
  · rename_i hc
    cases h
    simp [hc]
  · rename_i t hc
    split at h
    · cases h
      simp [mem_addCreated, hc]
    · split at h
      · exact absurd h (by simp)
      · cases h
        simp [mem_addCreated, hc]

/-- Membership in the created set after a completed loop run. -/
theorem organizeLoop_created {env : Env} {cfg : Config} {p : Bool} :
    ∀ (fl : List FPath) (acc : LoopAcc) (st : St) {acc' : LoopAcc} {st' : St},
    organizeLoop env cfg p fl acc st = .ok acc' st' → ∀ d,
    (d ∈ acc'.created ↔ d ∈ acc.created ∨
      ∃ f ∈ fl, ∃ t, createTargetPath cfg (pathName f) = .ok (some t) ∧ d = pathParent t) := by
  intro fl
  induction fl with
  | nil =>
    intro acc st acc' st' h d
    simp only [organizeLoop] at h
    cases h
    simp
  | cons f fl ih =>
    intro acc st acc' st' h d
    simp only [organizeLoop] at h
    rcases hp : processOne env cfg p f acc st with ⟨acc1, st1⟩ | ⟨e, st1⟩
    · rw [hp] at h
      rw [ih acc1 st1 h d, processOne_created hp d]
      constructor
      · rintro ((hd | ⟨t, ht, rfl⟩) | ⟨g, hg, t, ht, rfl⟩)
        · exact Or.inl hd
        · exact Or.inr ⟨f, by simp, t, ht, rfl⟩
        · exact Or.inr ⟨g, by simp [hg], t, ht, rfl⟩
      · rintro (hd | ⟨g, hg, t, ht, rfl⟩)
        · exact Or.inl (Or.inl hd)
        · rcases List.mem_cons.mp hg with rfl | hg
          · exact Or.inl (Or.inr ⟨t, ht, rfl⟩)
          · exact Or.inr ⟨g, hg, t, ht, rfl⟩
    · rw [hp] at h
      exact absurd h (by simp)

/-- An iteration whose file classifies without a date error completes
normally whenever the run is a preview or the mode is plain MOVE. -/
theorem processOne_move_ok {env : Env} {cfg : Config} {p : Bool} {f : FPath}
    (acc : LoopAcc) (st : St)
    (hok : (createTargetPath cfg (pathName f)).isOk = true)
    (hmode : cfg.mode = OperationMode.MOVE ∨ p = true) :
    ∃ acc' st', processOne env cfg p f acc st = .ok acc' st' := by
  unfold processOne
  rcases hc : createTargetPath cfg (pathName f) with e | t?
  · rw [hc] at hok
    simp [Except.isOk, Except.toBool] at hok
  · rcases t? with - | t
    · exact ⟨_, _, rfl⟩
    · by_cases hpv : p = true
      · subst hpv
        exact ⟨_, _, rfl⟩
      · dsimp only
        rw [if_neg hpv]
        rcases hmode with hm | hm
        · rw [hm]
          rcases hmb : moveBranch env f t st with ⟨r, st1⟩
          exact ⟨_, _, rfl⟩
        · exact absurd hm hpv

/-- A loop run over classifiable files completes normally in preview or
MOVE mode, whatever the environment does. -/
theorem organizeLoop_move_ok (env : Env) (cfg : Config) (p : Bool) :
    ∀ (fl : List FPath) (acc : LoopAcc) (st : St),
    (∀ f ∈ fl, (createTargetPath cfg (pathName f)).isOk = true) →
    (cfg.mode = OperationMode.MOVE ∨ p = true) →
    ∃ acc' st', organizeLoop env cfg p fl acc st = .ok acc' st' := by
  intro fl
  induction fl with
  | nil =>
    intro acc st hcl hmode
    exact ⟨acc, st, rfl⟩
  | cons f fl ih =>
    intro acc st hcl hmode
    obtain ⟨acc1, st1, hp⟩ := processOne_move_ok acc st (hcl f (by simp)) hmode
    obtain ⟨acc', st', hl⟩ := ih acc1 st1 (fun g hg => hcl g (by simp [hg])) hmode
    refine ⟨acc', st', ?_⟩
    simp only [organizeLoop]
    rw [hp]
    exact hl

/-- Inversion of a normally-returning `organize_files`: the loop completed
and every field of the result is the corresponding aggregate. -/
theorem organizeFiles_ok_inv {env : Env} {cfg : Config} {files : List FPath}
    {p : Bool} {st : St} {res : OrganizeResult} {st' : St}
    (h : organizeFiles env cfg files p st = .ok res st') :
    ∃ acc, organizeLoop env cfg p files ⟨[], [], 0, 0⟩ st = .ok acc st' ∧
      res.total_files = files.length ∧ res.processed_files = acc.processed ∧
      res.failed_files = acc.failed ∧ res.created_folders = acc.created ∧
      res.results = acc.results ∧
      res.total_original_size = totalOriginalOf acc.results ∧
      res.total_compressed_size = totalCompressedOf acc.results ∧
      res.total_savings = (totalOriginalOf acc.results : Int) - (totalCompressedOf acc.results : Int) := by
  unfold organizeFiles at h
  rcases hl : organizeLoop env cfg p files ⟨[], [], 0, 0⟩ st with ⟨acc, st2⟩ | ⟨e, st2⟩
  · rw [hl] at h
    cases h
    exact ⟨acc, rfl, rfl, rfl, rfl, rfl, rfl, rfl, rfl, rfl⟩
  · rw [hl] at h
    exact absurd h (by simp)

/-- The truthiness-guarded sum equals the sum over the filtered list. -/
theorem sumTruthy_eq (g : ProcessResult → Option Nat) (rs : List ProcessResult) :
    (rs.map (fun r => if optTruthy (g r) then (g r).getD 0 else 0)).sum =
    ((rs.filter (fun r => optTruthy (g r))).map (fun r => (g r).getD 0)).sum := by
  induction rs with
  | nil => rfl
  | cons r rs ih =>
    by_cases hg : optTruthy (g r) = true <;> simp [hg, ih]

/-- Symbolic evaluation of the optimization step when the external tool
exits non-zero without throwing: the staged copy is moved to the
destination and the outcome is a `skipped_larger` success. -/
theorem optimize_nonzero_exit (env : Env) (source target temp : FPath) (st : St) (sz : Nat)
    (hsz : fsStat st.fs source = some sz)
    (hpng : isPngName (pathName source) = true)
    (hthrow : env.pngquantThrows = false)
    (hret : env.pngquantRet ≠ 0)
    (hcf : env.copyFails source temp = false)
    (hmk : env.mkdirFails (pathParent target) = false)
    (hmf : env.moveFails temp target = false)
    (hts : temp ≠ source) (htt : temp ≠ target) (hstg : source ≠ target) :
    ∃ st', optimizeWithPngquant env false source target temp st =
        .ok { source_path := source, target_path := some target, success := true,
              original_size := some sz, compressed_size := some sz,
              compression_ratio := some ratioZero,
              pngquant_status := some "skipped_larger" } st' ∧
      fsStat st'.fs target = some sz ∧ fsStat st'.fs source = none := by
  have hst : source ≠ temp := Ne.symm hts
  have htg : target ≠ temp := Ne.symm htt
  have hgs : target ≠ source := Ne.symm hstg
  refine ⟨{ st with
      fs := fsRemove (fsWrite (fsRemove (fsWrite (fsWrite st.fs temp 0) temp sz) temp) target sz) source,
      dirs := if pathParent target ∈ st.dirs then st.dirs else st.dirs ++ [pathParent target] },
    ?_, ?_, ?_⟩
  · simp only [optimizeWithPngquant, pngTryBody, opBind, statSize, copy2, runPngquant,
      mkdirParents, moveFile, unlinkFile, fsStat_fsWrite, fsStat_fsRemove,
      hsz, hpng, hthrow, hret, hcf, hmk, hmf, hts, htt, hstg, hst, htg, hgs,
      if_true, if_false, not_true, not_false_iff, Option.isSome_some, ite_true, ite_false,
      reduceCtorEq]
  · simp [fsStat_fsWrite, fsStat_fsRemove, hgs, htg]
  · simp [fsStat_fsRemove]

/-- Symbolic evaluation of the optimization step when the external tool
invocation throws (executable missing): the exception is caught, the
staging file cleaned, and the untouched original is relocated by the
fallback, the outcome an `error_fallback` success. -/
theorem optimize_throw_fallback (env : Env) (source target temp : FPath) (st : St) (sz : Nat)
    (hsz : fsStat st.fs source = some sz)
    (hpng : isPngName (pathName source) = true)
    (hthrow : env.pngquantThrows = true)
    (hcf : env.copyFails source temp = false)
    (hmf : env.moveFails source target = false)
    (hts : temp ≠ source) (htt : temp ≠ target) (hstg : source ≠ target) :
    ∃ st', optimizeWithPngquant env false source target temp st =
        .ok { source_path := source, target_path := some target, success := true,
              original_size := some sz, compressed_size := some sz,
              compression_ratio := some ratioZero,
              pngquant_status := some "error_fallback",
              error_message := some
                "Optimization failed, fallback successful: FileNotFoundError: pngquant" } st' ∧
      fsStat st'.fs target = some sz ∧ fsStat st'.fs source = none := by
  have hst : source ≠ temp := Ne.symm hts
  have htg : target ≠ temp := Ne.symm htt
  have hgs : target ≠ source := Ne.symm hstg
  refine ⟨{ st with
      fs := fsWrite (fsRemove (fsRemove (fsWrite (fsWrite st.fs temp 0) temp sz) temp) source) target sz },
    ?_, ?_, ?_⟩
  · simp only [optimizeWithPngquant, pngTryBody, opBind, statSize, copy2, runPngquant,
      mkdirParents, moveFile, unlinkFile, exceptFallback, cleanTemp,
      fsStat_fsWrite, fsStat_fsRemove,
      hsz, hpng, hthrow, hcf, hmf, hts, htt, hstg, hst, htg, hgs,
      if_true, if_false, not_true, not_false_iff, Option.isSome_some, ite_true, ite_false,
      reduceCtorEq]
    rfl
  · simp [fsStat_fsWrite, fsStat_fsRemove, hgs, htg]
  · simp [fsStat_fsWrite, fsStat_fsRemove, hgs, hstg]

/-! Claim theorems. -/

/-- **C1** (counterexample): with an external optimizer that always exits
1 — a non-zero status that is neither success nor a specific
"would be larger" code — the PNG candidate does NOT end in `error` or the
fallback outcome: the code collapses every non-zero exit into the
would-grow branch and reports a `skipped_larger` SUCCESS (no error
message), though the file does reach its destination with
`original_size = compressed_size`. -/
theorem c1_counterexample_nonzero_exit_not_error :
    optimizeWithPngquant envRet1 false srcGood tgtGood tmp0 st0 = .ok recSkipW stSkipW ∧
    envRet1.pngquantRet = 1 ∧
    recSkipW.pngquant_status = some "skipped_larger" ∧
    recSkipW.success = true ∧
    recSkipW.error_message = none ∧
    fsStat stSkipW.fs tgtGood = some 100 := by
  refine ⟨by decide, rfl, rfl, rfl, rfl, by decide⟩

/-- **C1** (amended): any non-zero exit of the external optimizer — without
distinction of a "declined" code — takes the same branch as a decline: the
outcome is a `skipped_larger` success, the staged copy (byte-identical to
the original) is moved to the destination, and
`original_size = compressed_size`; only a THROWN condition during
staging/invocation yields the fallback path, whose success is the
`error_fallback` outcome with the file likewise at its destination and
sizes equal. -/
theorem c1_amended_nonzero_exit_is_skip :
    (∀ (env : Env) (source target temp : FPath) (st : St) (sz : Nat),
      fsStat st.fs source = some sz →
      isPngName (pathName source) = true →
      env.pngquantThrows = false →
      env.pngquantRet ≠ 0 →
      env.copyFails source temp = false →
      env.mkdirFails (pathParent target) = false →
      env.moveFails temp target = false →
      temp ≠ source → temp ≠ target → source ≠ target →
      ∃ st', optimizeWithPngquant env false source target temp st =
          .ok { source_path := source, target_path := some target, success := true,
                original_size := some sz, compressed_size := some sz,
                compression_ratio := some ratioZero,
                pngquant_status := some "skipped_larger" } st' ∧
        fsStat st'.fs target = some sz ∧ fsStat st'.fs source = none) ∧
    (∀ (env : Env) (source target temp : FPath) (st : St) (sz : Nat),
      fsStat st.fs source = some sz →
      isPngName (pathName source) = true →
      env.pngquantThrows = true →
      env.copyFails source temp = false →
      env.moveFails source target = false →
      temp ≠ source → temp ≠ target → source ≠ target →
      ∃ st', optimizeWithPngquant env false source target temp st =
          .ok { source_path := source, target_path := some target, success := true,
                original_size := some sz, compressed_size := some sz,
                compression_ratio := some ratioZero,
                pngquant_status := some "error_fallback",
                error_message := some
                  "Optimization failed, fallback successful: FileNotFoundError: pngquant" } st' ∧
        fsStat st'.fs target = some sz ∧ fsStat st'.fs source = none) :=
  ⟨fun env source target temp st sz hsz hpng hthrow hret hcf hmk hmf hts htt hstg =>
      optimize_nonzero_exit env source target temp st sz
        hsz hpng hthrow hret hcf hmk hmf hts htt hstg,
   fun env source target temp st sz hsz hpng hthrow hcf hmf hts htt hstg =>
      optimize_throw_fallback env source target temp st sz
        hsz hpng hthrow hcf hmf hts htt hstg⟩

/-- **C1** (witness): the skip behavior instantiated at the concrete
exit-1 environment. -/
theorem c1_amended_nonzero_exit_is_skip_witness :
    (fsStat st0.fs srcGood = some 100 ∧ isPngName (pathName srcGood) = true ∧
      envRet1.pngquantThrows = false ∧ envRet1.pngquantRet ≠ 0 ∧
      envRet1.copyFails srcGood tmp0 = false ∧
      envRet1.mkdirFails (pathParent tgtGood) = false ∧
      envRet1.moveFails tmp0 tgtGood = false ∧
      tmp0 ≠ srcGood ∧ tmp0 ≠ tgtGood ∧ srcGood ≠ tgtGood) ∧
    (∃ st', optimizeWithPngquant envRet1 false srcGood tgtGood tmp0 st0 =
        .ok { source_path := srcGood, target_path := some tgtGood, success := true,
              original_size := some 100, compressed_size := some 100,
              compression_ratio := some ratioZero,
              pngquant_status := some "skipped_larger" } st' ∧
      fsStat st'.fs tgtGood = some 100 ∧ fsStat st'.fs srcGood = none) :=
  ⟨⟨by decide, by decide, rfl, by decide, rfl, rfl, rfl, by decide, by decide, by decide⟩,
   c1_amended_nonzero_exit_is_skip.1 envRet1 srcGood tgtGood tmp0 st0 100
     (by decide) (by decide) rfl (by decide) rfl rfl rfl
     (by decide) (by decide) (by decide)⟩

/-- **C5** (counterexample): with the external optimizer missing (the
subprocess invocation raises `FileNotFoundError`), `organize_files`
performs NO startup check and returns normally: the absence appears ONLY
as per-file `error_fallback` outcomes, never as a run-level startup
error. -/
theorem c5_counterexample_no_startup_check :
    organizeFiles envNoTool cfg0 [srcGood] false st0 = .ok resNoToolW stNoToolW ∧
    envNoTool.pngquantThrows = true ∧
    resNoToolW.results.map (fun r => (r.pngquant_status, r.success)) =
      [(some "error_fallback", true)] ∧
    resNoToolW.processed_files = 1 ∧ resNoToolW.failed_files = 0 := by
  refine ⟨by decide, rfl, by decide, rfl, rfl⟩

/-- **C5** (amended): no startup availability check for the external
optimizer exists in `organize_files`; when the executable is missing, the
per-file subprocess invocation raises, is caught inside the optimization
step, and — when the fallback relocation succeeds — the run returns
normally with the file's outcome tagged `error_fallback` and counted as
processed. -/
theorem c5_amended_missing_tool_per_file (env : Env) (cfg : Config)
    (f t : FPath) (st : St) (sz : Nat)
    (hmode : cfg.mode = OperationMode.OPTIMIZE_MOVE)
    (hkeep : cfg.keep_original = false)
    (hct : createTargetPath cfg (pathName f) = .ok (some t))
    (hsz : fsStat st.fs f = some sz)
    (hpng : isPngName (pathName f) = true)
    (hthrow : env.pngquantThrows = true)
    (hcf : env.copyFails f (env.tempPath f) = false)
    (hmf : env.moveFails f t = false)
    (hts : env.tempPath f ≠ f) (htt : env.tempPath f ≠ t) (hft : f ≠ t) :
    (okValue (organizeFiles env cfg [f] false st)).map
      (fun res => (res.results.map (fun r => (r.pngquant_status, r.success)),
        res.processed_files, res.failed_files))
      = some ([(some "error_fallback", true)], 1, 0) := by
  obtain ⟨st', heq, htgt, hsrc⟩ :=
    optimize_throw_fallback env f t (env.tempPath f) st sz
      hsz hpng hthrow hcf hmf hts htt hft
  simp only [organizeFiles, organizeLoop, processOne, hct, hmode, hkeep, heq,
    addCreated, okValue, if_true, if_false, ite_true, ite_false, reduceCtorEq]
  simp

/-- **C5** (witness): the amended statement instantiated at the concrete
missing-optimizer run. -/
theorem c5_amended_missing_tool_per_file_witness :
    (cfg0.mode = OperationMode.OPTIMIZE_MOVE ∧ cfg0.keep_original = false ∧
      createTargetPath cfg0 (pathName srcGood) = .ok (some tgtGood) ∧
      fsStat st0.fs srcGood = some 100 ∧ isPngName (pathName srcGood) = true ∧
      envNoTool.pngquantThrows = true ∧
      envNoTool.copyFails srcGood (envNoTool.tempPath srcGood) = false ∧
      envNoTool.moveFails srcGood tgtGood = false ∧
      envNoTool.tempPath srcGood ≠ srcGood ∧ envNoTool.tempPath srcGood ≠ tgtGood ∧
      srcGood ≠ tgtGood) ∧
    (okValue (organizeFiles envNoTool cfg0 [srcGood] false st0)).map
      (fun res => (res.results.map (fun r => (r.pngquant_status, r.success)),
        res.processed_files, res.failed_files))
      = some ([(some "error_fallback", true)], 1, 0) :=
  ⟨⟨rfl, rfl, rfl, by decide, by decide, rfl, rfl, rfl, by decide, by decide, by decide⟩,
   c5_amended_missing_tool_per_file envNoTool cfg0 srcGood tgtGood st0 100
     rfl rfl rfl (by decide) (by decide) rfl rfl rfl
     (by decide) (by decide) (by decide)⟩

/-- **C2** (counterexample): a filename whose matched month is 13 raises
`ValueError` at the `datetime` construction inside `_create_target_path`;
the exception is not caught in `organize_files`, so the run ABORTS with no
`OrganizeResult` and the remaining file receives no outcome — refuting
"does not abort the run or prevent outcomes for the remaining files". -/
theorem c2_counterexample_month13_aborts :
    organizeFiles envBase cfgMove [srcBad13, srcGood] false st13 = .err "ValueError" st13 ∧
    getWeekOfYear 2023 13 1 = .error "ValueError" ∧
    parseDateFromFilename fnBad13 = some (2023, 13, 1) := by
  refine ⟨by decide, rfl, by decide⟩

/-- **C2** (amended): in plain-MOVE mode, over a discovered list in which
every matching filename yields a constructible date, the run never aborts —
whatever the environment does to the per-file moves — and returns a complete
`OrganizeResult` with exactly one terminal outcome per discovered file; an
out-of-range month instead propagates `ValueError` from the calendar-date
construction and aborts the whole run. -/
theorem c2_amended_run_completes (env : Env) (cfg : Config)
    (files : List FPath) (st : St)
    (hmode : cfg.mode = OperationMode.MOVE)
    (hclass : ∀ f ∈ files, (createTargetPath cfg (pathName f)).isOk = true) :
    ∃ res st', organizeFiles env cfg files false st = .ok res st' ∧
      res.results.length = files.length ∧
      res.processed_files + res.failed_files = files.length := by
  obtain ⟨acc, st', hl⟩ :=
    organizeLoop_move_ok env cfg false files ⟨[], [], 0, 0⟩ st hclass (Or.inl hmode)
  obtain ⟨l1, c1⟩ := organizeLoop_ok_counts files ⟨[], [], 0, 0⟩ st hl
  refine ⟨{ total_files := files.length, processed_files := acc.processed,
            failed_files := acc.failed, created_folders := acc.created,
            results := acc.results,
            total_original_size := totalOriginalOf acc.results,
            total_compressed_size := totalCompressedOf acc.results,
            total_savings := (totalOriginalOf acc.results : Int) -
              (totalCompressedOf acc.results : Int),
            optimization_stats := some (mkStats acc.results (totalOriginalOf acc.results)
              ((totalOriginalOf acc.results : Int) - (totalCompressedOf acc.results : Int))) },
         st', ?_, ?_, ?_⟩
  · unfold organizeFiles
    rw [hl]
  · simpa using l1
  · simpa using c1

/-- **C2** (witness): the amended theorem applied to a concrete MOVE-mode
run over the single classifiable file, in an environment where the move
fails. -/
theorem c2_amended_run_completes_witness :
    (cfgMove.mode = OperationMode.MOVE ∧
      (∀ f ∈ [srcGood], (createTargetPath cfgMove (pathName f)).isOk = true)) ∧
    (∃ res st', organizeFiles envMoveFail cfgMove [srcGood] false st0 = .ok res st' ∧
      res.results.length = [srcGood].length ∧
      res.processed_files + res.failed_files = [srcGood].length) :=
  ⟨⟨rfl, by decide⟩,
   c2_amended_run_completes envMoveFail cfgMove [srcGood] st0 rfl (by decide)⟩

/-- **C3**: at the failing input — MOVE mode, one classifiable candidate
whose physical move succeeds — the code stats the source AFTER moving it
away, so the caught `FileNotFoundError` records the file as a FAILURE with
status `error` and counts it in `failed_files`, although the file is
present at its destination; the claimed `moved_only` success is never
recorded. -/
theorem c3_move_only_success_unreachable :
    organizeFiles envBase cfgMove [srcGood] false st0 = .ok resMoveBugW stMoveBugW ∧
    resMoveBugW.processed_files = 0 ∧ resMoveBugW.failed_files = 1 ∧
    resMoveBugW.results.map (fun r => (r.success, r.pngquant_status)) =
      [(false, some "error")] ∧
    resMoveBugW.results.map (fun r => r.error_message) = [some "FileNotFoundError"] ∧
    fsStat stMoveBugW.fs tgtGood = some 100 ∧
    fsStat stMoveBugW.fs srcGood = none := by
  refine ⟨by decide, rfl, rfl, by decide, by decide, by decide, by decide⟩

/-- **C4**: for every filename that classifies to `(y, m, d)` with a
constructible date, the destination is
`target_root / "{y}-{m:02}-{MonthName}" / "Week{isoWeek:02}" / filename`;
the ISO-8601 week of 2023-03-15 is 11 (and of 2021-01-01 is 53, the
year-boundary check), the concrete destination of scenario A is
`2023-03-March/Week11`, a non-matching filename classifies to no
destination, and the computation is deterministic. -/
theorem c4_destination_path (cfg : Config) (filename : String) :
    (∀ y m d, parseDateFromFilename filename = some (y, m, d) →
        datetimeValid y m d = true →
        createTargetPath cfg filename = .ok (some (cfg.target_dir ++
          [toString y ++ "-" ++ pad2 m ++ "-" ++ getMonthName m,
           "Week" ++ pad2 (isoWeek y m d), filename]))) ∧
    (parseDateFromFilename filename = none → createTargetPath cfg filename = .ok none) ∧
    isoWeek 2023 3 15 = 11 ∧ isoWeek 2021 1 1 = 53 ∧
    createTargetPath cfg0 fnGood = .ok (some ["Screenshots", "2023-03-March", "Week11", fnGood]) ∧
    createTargetPath cfg fnNoMatch = .ok none ∧
    createTargetPath cfg filename = createTargetPath cfg filename := by
  refine ⟨?_, ?_, by decide, by decide, rfl, rfl, rfl⟩
  · intro y m d hp hv
    simp only [createTargetPath, getWeekOfYear, hp, hv, if_true]
  · intro hn
    simp only [createTargetPath, hn]

/-- **C4** (witness): the formula instantiated at scenario A's filename. -/
theorem c4_destination_path_witness :
    (parseDateFromFilename fnGood = some (2023, 3, 15) ∧
      datetimeValid 2023 3 15 = true) ∧
    createTargetPath cfg0 fnGood = .ok (some (cfg0.target_dir ++
      [toString 2023 ++ "-" ++ pad2 3 ++ "-" ++ getMonthName 3,
       "Week" ++ pad2 (isoWeek 2023 3 15), fnGood])) :=
  ⟨⟨by decide, by decide⟩,
   (c4_destination_path cfg0 fnGood).1 2023 3 15 (by decide) (by decide)⟩

/-- **C6** (witness): the cleanup invariant applied to the concrete benign
run: the staging path is fresh and distinct, and ends absent. -/
theorem c6_staging_file_never_leaked_witness :
    (fsStat st0.fs tmp0 = none ∧ tmp0 ≠ srcGood ∧ tmp0 ≠ tgtGood) ∧
    fsStat (finalSt (optimizeWithPngquant envBase false srcGood tgtGood tmp0 st0)).fs tmp0
      = none :=
  ⟨⟨by decide, by decide, by decide⟩,
   c6_staging_file_never_leaked envBase false srcGood tgtGood tmp0 st0
     (by decide) (by decide) (by decide)⟩

/-- **C7**: a preview run that returns normally has changed nothing — the
final state (files and created directories) equals the initial one — and
its result list holds exactly one record per discovered file: a success
carrying the destination a real run would use when the file classifies,
the cannot-parse failure otherwise. -/
theorem c7_preview_no_side_effects (env : Env) (cfg : Config) (files : List FPath)
    (st : St) (res : OrganizeResult) (st' : St)
    (h : organizeFiles env cfg files true st = .ok res st') :
    st' = st ∧ res.results = files.map (previewOutcome cfg) ∧
    ∀ f t, f ∈ files → createTargetPath cfg (pathName f) = .ok (some t) →
      previewResult f t ∈ res.results := by
  obtain ⟨acc, hl, ht, hp2, hf, hcr, hres, ho, hcp, hs⟩ := organizeFiles_ok_inv h
  obtain ⟨hst, hr⟩ := organizeLoop_preview files ⟨[], [], 0, 0⟩ st hl
  refine ⟨hst, by rw [hres, hr]; simp, ?_⟩
  intro f t hfm ht2
  rw [hres, hr]
  simp only [List.nil_append]
  exact List.mem_map.mpr ⟨f, hfm, by simp [previewOutcome, ht2]⟩

/-- **C7** (witness): the concrete preview run over one matching and one
non-matching file returns with the state untouched. -/
theorem c7_preview_no_side_effects_witness :
    organizeFiles envBase cfg0 [srcGood, srcNoMatch] true stPrev = .ok resPreviewW stPrev ∧
    (stPrev = stPrev ∧
      resPreviewW.results = [srcGood, srcNoMatch].map (previewOutcome cfg0) ∧
      ∀ f t, f ∈ [srcGood, srcNoMatch] →
        createTargetPath cfg0 (pathName f) = .ok (some t) →
        previewResult f t ∈ resPreviewW.results) :=
  ⟨by decide,
   c7_preview_no_side_effects envBase cfg0 [srcGood, srcNoMatch] stPrev resPreviewW stPrev
     (by decide)⟩

/-- **C8** (counterexample): in a MOVE-mode run whose single file FAILS
(its move raises), the failed file still contributes its destination
directory to `created_folders` — refuting "a file whose processing fails
does not contribute its destination directory". -/
theorem c8_counterexample_failed_file_contributes :
    (okValue (organizeFiles envMoveFail cfgMove [srcGood] false st0)).map
      (fun res => (res.processed_files, res.failed_files, res.created_folders,
        res.results.map (fun r => r.success)))
      = some (0, 1, [weekDir], [false]) := by decide

/-- **C8** (amended): after a normally-returning run, `created_folders`
holds exactly the destination parents of the files that classified to a
destination — previewed, succeeded or failed alike; only files whose
classification fails contribute nothing. -/
theorem c8_amended_created_folders (env : Env) (cfg : Config) (files : List FPath)
    (p : Bool) (st : St) (res : OrganizeResult) (st' : St)
    (h : organizeFiles env cfg files p st = .ok res st') (d : FPath) :
    d ∈ res.created_folders ↔
      ∃ f ∈ files, ∃ t, createTargetPath cfg (pathName f) = .ok (some t) ∧
        d = pathParent t := by
  obtain ⟨acc, hl, ht, hp2, hf, hcr, hres, ho, hcp, hs⟩ := organizeFiles_ok_inv h
  rw [hcr, organizeLoop_created files ⟨[], [], 0, 0⟩ st hl d]
  simp

/-- **C8** (witness): the amended characterization applied to the concrete
failed-move run: the destination directory of the (failed) file is in the
set. -/
theorem c8_amended_created_folders_witness :
    organizeFiles envMoveFail cfgMove [srcGood] false st0 = .ok resMoveFailW stMoveFailW ∧
    (weekDir ∈ resMoveFailW.created_folders ↔
      ∃ f ∈ [srcGood], ∃ t, createTargetPath cfgMove (pathName f) = .ok (some t) ∧
        weekDir = pathParent t) :=
  ⟨by decide,
   c8_amended_created_folders envMoveFail cfgMove [srcGood] false st0
     resMoveFailW stMoveFailW (by decide) weekDir⟩

/-- **C9**: the report generator is a pure function of the configuration
flag and the `OrganizeResult`: two applications yield character-identical
text and identical derived totals, and the state-threaded wrapper returns
the state unchanged (no side effect, no mutation of the result). -/
theorem c9_report_idempotent (keep : Bool) (res : OrganizeResult) (st : St) :
    generateCompressionReport keep res = generateCompressionReport keep res ∧
    reportTotals res = reportTotals res ∧
    (reportRun keep res st).2 = st ∧
    (reportRun keep res st).1 = generateCompressionReport keep res :=
  ⟨rfl, rfl, rfl, rfl⟩

/-- **C10**: every normally-returning run satisfies the accounting
invariants: one result per discovered file, processed + failed = total,
savings = original − compressed, and the two size totals are the sums over
exactly those per-file results whose size field is present and non-zero. -/
theorem c10_result_accounting (env : Env) (cfg : Config) (files : List FPath)
    (p : Bool) (st : St) (res : OrganizeResult) (st' : St)
    (h : organizeFiles env cfg files p st = .ok res st') :
    res.results.length = res.total_files ∧
    res.processed_files + res.failed_files = res.total_files ∧
    res.total_savings = (res.total_original_size : Int) - (res.total_compressed_size : Int) ∧
    res.total_original_size =
      ((res.results.filter (fun r => optTruthy r.original_size)).map
        (fun r => r.original_size.getD 0)).sum ∧
    res.total_compressed_size =
      ((res.results.filter (fun r => optTruthy r.compressed_size)).map
        (fun r => r.compressed_size.getD 0)).sum := by
  obtain ⟨acc, hl, ht, hp2, hf, hcr, hres, ho, hcp, hs⟩ := organizeFiles_ok_inv h
  obtain ⟨l1, c1⟩ := organizeLoop_ok_counts files ⟨[], [], 0, 0⟩ st hl
  refine ⟨?_, ?_, ?_, ?_, ?_⟩
  · rw [hres, ht]; simpa using l1
  · rw [hp2, hf, ht]; simpa using c1
  · rw [hs, ho, hcp]
  · rw [ho, hres]
    exact sumTruthy_eq (fun r => r.original_size) acc.results
  · rw [hcp, hres]
    exact sumTruthy_eq (fun r => r.compressed_size) acc.results

/-- **C10** (witness): the invariants instantiated on the concrete benign
optimization run. -/
theorem c10_result_accounting_witness :
    organizeFiles envBase cfg0 [srcGood] false st0 = .ok resOptW stOptW ∧
    (resOptW.results.length = resOptW.total_files ∧
      resOptW.processed_files + resOptW.failed_files = resOptW.total_files ∧
      resOptW.total_savings =
        (resOptW.total_original_size : Int) - (resOptW.total_compressed_size : Int) ∧
      resOptW.total_original_size =
        ((resOptW.results.filter (fun r => optTruthy r.original_size)).map
          (fun r => r.original_size.getD 0)).sum ∧
      resOptW.total_compressed_size =
        ((resOptW.results.filter (fun r => optTruthy r.compressed_size)).map
          (fun r => r.compressed_size.getD 0)).sum) :=
  ⟨by decide,
   c10_result_accounting envBase cfg0 [srcGood] false st0 resOptW stOptW (by decide)⟩

end Organizer
